import Mathlib

set_option autoImplicit false
set_option linter.unusedVariables false

/-!
Verification of the 2fy YAML conversion tool (codem8s/2fy, main.go in two
revisions).  The file embeds, from the source:

* the yaml2json command action (second revision of main.go, lines 241-277),
  including its hardcoded jsonpath template "[open-brace].foo[close-brace]",
  its nil-object short-circuit and its error propagation;
* the two yaml2txt command actions (revision 1 lines 61-76, revision 2
  lines 208-223);
* readInput in both revisions (revision 1 lines 97-123, revision 2
  lines 305-331) and writeOutput (identical in both revisions);
* the debug flag wiring: preload raises the logrus level, and every
  logrus.Debug call emits a line only in debug mode.

The YAML decoder, the k8s jsonpath engine and the Go fmt rendering are
external library boundaries not present in the repository; following the
design document they are modelled from its component contracts (sections
4.1, 4.2, 4.3): path evaluation over a generic value, the zero/one/many
shaping rule, JSON serialization, and the debug-style text rendering.
-/

/-- Generic value model for a parsed YAML/JSON document, the tagged union
described in section 3 of the design document (the Go code holds it as an
untyped interface value).  Numbers are modelled as integers, which covers
every value the claims mention. -/
inductive Value where
  | null
  | bool (b : Bool)
  | int (n : Int)
  | str (s : String)
  | seq (elems : List Value)
  | map (pairs : List (String × Value))

/-- Key lookup in a mapping, first match wins (keys are unique within a
mapping by the data model invariant). -/
def lookupKv : List (String × Value) → String → Option Value
  | [], _ => none
  | (k, v) :: rest, key => if k = key then some v else lookupKv rest key

/-- Generic association lookup for the modelled file system. -/
def lookupFile : List (String × String) → String → Option String
  | [], _ => none
  | (p, c) :: rest, path => if p = path then some c else lookupFile rest path

/-- Escape one character for a JSON string literal. -/
def jsonEscapeChar (c : Char) : String :=
  if c = '"' then "\\\"" else if c = '\\' then "\\\\" else String.singleton c

/-- JSON string literal for a key or string scalar. -/
def jsonString (s : String) : String :=
  "\"" ++ String.join (s.toList.map jsonEscapeChar) ++ "\""

mutual

/-- Modelled from the spec: standard JSON encoding of the value tree
(section 4.3, JSON serializer); the Go code delegates this to library
serialization, which is not part of the repository. -/
def jsonEncode : Value → String
  | Value.null => "null"
  | Value.bool b => if b then "true" else "false"
  | Value.int n => toString n
  | Value.str s => jsonString s
  | Value.seq elems => "[" ++ String.intercalate "," (jsonEncodeList elems) ++ "]"
  | Value.map pairs => "\x7b" ++ String.intercalate "," (jsonEncodePairs pairs) ++ "\x7d"

def jsonEncodeList : List Value → List String
  | [] => []
  | v :: vs => jsonEncode v :: jsonEncodeList vs

def jsonEncodePairs : List (String × Value) → List String
  | [] => []
  | (k, v) :: rest => (jsonString k ++ ":" ++ jsonEncode v) :: jsonEncodePairs rest

end

/-- Lexicographic comparison on character lists by code point. -/
def strLeAux : List Char → List Char → Bool
  | [], _ => true
  | _ :: _, [] => false
  | a :: as, b :: bs =>
    if a.toNat < b.toNat then true
    else if b.toNat < a.toNat then false
    else strLeAux as bs

/-- Lexicographic string order used to sort rendered map entries. -/
def strLe (s t : String) : Bool := strLeAux s.toList t.toList

/-- Insertion step for sorting rendered map entries. -/
def insertSorted (s : String) : List String → List String
  | [] => [s]
  | t :: rest => if strLe s t then s :: t :: rest else t :: insertSorted s rest

/-- Insertion sort on strings; the Go fmt package prints map entries in
sorted key order (section 4.3 of the design document calls the rendering
key-sorted). -/
def sortStrings : List String → List String
  | [] => []
  | s :: rest => insertSorted s (sortStrings rest)

mutual

/-- Modelled from the spec: the debug-style text rendering of a value
(section 4.3, text serializer), standing in for the Go fmt percent-v
rendering that both yaml2txt variants apply to the decoded map.  Mappings
render as map[key:value ...] with sorted entries, sequences as

[v1 v2 v3], null as the token used by Go for a nil interface. -/
def goRender : Value → String
  | Value.null => "<nil>"
  | Value.bool b => if b then "true" else "false"
  | Value.int n => toString n
  | Value.str s => s
  | Value.seq elems => "[" ++ String.intercalate " " (goRenderList elems) ++ "]"
  | Value.map pairs => "map[" ++ String.intercalate " " (sortStrings (goRenderPairs pairs)) ++ "]"

def goRenderList : List Value → List String
  | [] => []
  | v :: vs => goRender v :: goRenderList vs

def goRenderPairs : List (String × Value) → List String
  | [] => []
  | (k, v) :: rest => (k ++ ":" ++ goRender v) :: goRenderPairs rest

end

/-- The opening brace character. -/
def obr : Char := Char.ofNat 123

/-- The closing brace character. -/
def cbr : Char := Char.ofNat 125

/-- Split a character list into field names at every dot. -/
def splitOnDot : List Char → List String
  | [] => [""]
  | c :: rest =>
    if c = '.' then "" :: splitOnDot rest
    else
      match splitOnDot rest with
      | [] => [String.singleton c]
      | s :: ss => (String.singleton c ++ s) :: ss

/-- Modelled from the spec: parse the inner path-query expression
(section 3, Query; section 4.1): an empty expression, or a leading dot
marker denoting the current value followed by dot-separated field-name
segments.  Malformed expressions yield a syntax error carrying the
offending text. -/
def parseQuery (q : String) : Except String (List String) :=
  if q = "" ∨ q = "." then Except.ok []
  else
    match q.toList with
    | [] => Except.error ("expected leading dot in query " ++ q)
    | c :: rest =>
      if c = '.' then
        let segs := splitOnDot rest
        if segs.contains "" then Except.error ("empty segment in query " ++ q)
        else Except.ok segs
      else Except.error ("expected leading dot in query " ++ q)

/-- Modelled from the spec: parse of a jsonpath template as the Go code
passes it to the external engine, a query expression wrapped in braces.
A template not wrapped in balanced braces is malformed (QueryError
Syntax, reported with the template text). -/
def jsonpathParse (t : String) : Except String (List String) :=
  match t.toList with
  | [] => Except.error ("unrecognized template " ++ t)
  | c :: rest =>
    if c = obr ∧ rest.getLast? = some cbr then
      parseQuery (String.mk rest.dropLast)
    else Except.error ("unrecognized template " ++ t)

/-- Modelled from the spec: evaluation of one field segment against one
value (section 4.1): a mapping matches the value stored under the equal
key, an absent key contributes zero matches, and any segment applied to a
scalar or sequence is a zero-match branch, never an error. -/
def evalSegment (seg : String) : Value → List Value
  | Value.map pairs =>
    match lookupKv pairs seg with
    | some v => [v]
    | none => []
  | _ => []

/-- Modelled from the spec: evaluate a parsed query against a root value,
concatenating matches in traversal order (section 4.1); the empty segment
list selects exactly the root. -/
def evaluate (segs : List String) (root : Value) : List Value :=
  segs.foldl (fun ms seg => ms.flatMap (evalSegment seg)) [root]

/-- Modelled from the spec: the result shaper (section 4.2): zero matches
collapse to none, one match to that value unwrapped, several matches to a
sequence of the matches in order. -/
def shape : List Value → Option Value
  | [] => none
  | [v] => some v
  | vs => some (Value.seq vs)

/-- Modelled from the spec: the execute step the Go code runs against the
buffer: evaluate, shape, then serialize, where a none result from the
shaper short-circuits serialization and emits zero bytes (section 4.3). -/
def jsonpathExecute (segs : List String) (root : Value) : Except String String :=
  Except.ok
    (match shape (evaluate segs root) with
     | none => ""
     | some v => jsonEncode v)

/-- Error taxonomy of one run, following the error values the source
constructs: cli.NewExitError for the stdin check, plain errors for I/O,
decode, template parse and template execution failures, and the short
write sentinel from writeOutput. -/
inductive RunError where
  | exitError (msg : String) (code : Nat)
  | ioError (msg : String)
  | decodeError (msg : String)
  | templateError (msg : String)
  | execError (msg : String)
  | shortWrite

/-- Environment of one invocation: the flag destinations bound by the CLI
(inputPath, outputPath), the state of standard input, the readable files,
the outcome knobs of the output destination, and the two external YAML
decoders as function-valued collaborators (the yaml2json action decodes
into a generic value, the yaml2txt actions into a string-keyed map). -/
structure Env where
  inputPath : String
  outputPath : String
  stdinIsPipe : Bool
  stdinContent : String
  files : List (String × String)
  decode : String → Except String Value
  decodeMap : String → Except String (List (String × Value))
  stdoutErr : Bool
  stdoutShortWrite : Bool
  fileWriteErr : Bool

/-- readInput of the second revision (main.go lines 305-331): with no
input path, stdin must be a named pipe or the function returns
cli.NewExitError with code 1; with an input path the file is opened and
read (open or read failure is modelled as the file being unavailable). -/
def readInput (env : Env) : Except RunError String :=
  if env.inputPath = "" then
    if env.stdinIsPipe then Except.ok env.stdinContent
    else Except.error (RunError.exitError "Expected a pipe stdin" 1)
  else
    match lookupFile env.files env.inputPath with
    | some content => Except.ok content
    | none => Except.error (RunError.ioError ("open " ++ env.inputPath ++ ": no such file or directory"))

/-- readInput of the first revision (main.go lines 97-123): identical
control flow, but the stdin failure is a plain error built with
errors.New rather than a cli exit error. -/
def readInputV1 (env : Env) : Except RunError String :=
  if env.inputPath = "" then
    if env.stdinIsPipe then Except.ok env.stdinContent
    else Except.error (RunError.ioError "not a pipe stdin")
  else
    match lookupFile env.files env.inputPath with
    | some content => Except.ok content
    | none => Except.error (RunError.ioError ("open " ++ env.inputPath ++ ": no such file or directory"))

/-- writeOutput (identical in both revisions, lines 125-146 and 333-354):
with no output path the bytes go to stdout, where a write error is
returned as is and a successful write of fewer bytes than requested
returns io.ErrShortWrite; with an output path the bytes go to the file
and a write error is returned. -/
def writeOutput (env : Env) (content : String) : Except RunError Unit :=
  if env.outputPath = "" then
    if env.stdoutErr then Except.error (RunError.ioError "write to stdout failed")
    else if env.stdoutShortWrite then
      if content.length = 0 then Except.ok () else Except.error RunError.shortWrite
    else Except.ok ()
  else
    if env.fileWriteErr then Except.error (RunError.ioError "write to file failed")
    else Except.ok ()

/-- Trace of one command action: the arguments of every writeOutput call
in order, the debug log lines emitted, and the value the action returns. -/
structure RunTrace where
  writes : List String
  log : List String
  result : Except RunError Unit

/-- Total bytes committed to the output destination over a run. -/
def totalOutput (r : RunTrace) : String := String.join r.writes

/-- The jsonpath template of the yaml2json action: the source hardcodes
the literal brace-wrapped dot-foo template (main.go line 256); no flag of
the command can change it. -/
def tmpl : String := "\x7b.foo\x7d"

/-- The yaml2json command action (second revision, main.go lines
241-277): read input, unmarshal to a generic object, short-circuit a nil
object through writeOutput of zero bytes, otherwise parse the hardcoded
template, execute it against the object into a buffer, and write the
buffer.  Every failing stage returns its error before any write; debug
log lines are emitted only when the debug flag raised the level. -/
def yaml2jsonRun (debug : Bool) (env : Env) : RunTrace :=
  match readInput env with
  | Except.error e => ⟨[], [], Except.error e⟩
  | Except.ok content =>
    let log1 := if debug then ["Unmarshal to an object"] else []
    match env.decode content with
    | Except.error e => ⟨[], log1, Except.error (RunError.decodeError e)⟩
    | Except.ok obj =>
      match obj with
      | Value.null => ⟨[""], log1, writeOutput env ""⟩
      | _ =>
        match jsonpathParse tmpl with
        | Except.error e => ⟨[], log1, Except.error (RunError.templateError e)⟩
        | Except.ok segs =>
          let log2 := log1 ++ (if debug then ["JSON Path template: " ++ tmpl] else [])
          match jsonpathExecute segs obj with
          | Except.error e =>
            ⟨[], log2 ++ (if debug then ["Error executing template: " ++ e] else []),
              Except.error (RunError.execError ("error executing jsonpath " ++ tmpl))⟩
          | Except.ok out =>
            ⟨[out], log2 ++ (if debug then ["JSON: " ++ out] else []),
              writeOutput env out⟩

/-- The yaml2txt command action of the first revision (main.go lines
61-76): read input (logrus.Fatal aborts the run on failure, modelled as
an error result with no writes), unmarshal into a string-keyed map, and
write its text rendering followed by a newline. -/
def yaml2txtV1Run (debug : Bool) (env : Env) : RunTrace :=
  match readInputV1 env with
  | Except.error e => ⟨[], [], Except.error e⟩
  | Except.ok content =>
    let log1 := if debug then ["unmarshalling"] else []
    match env.decodeMap content with
    | Except.error e => ⟨[], log1, Except.error (RunError.decodeError e)⟩
    | Except.ok m =>
      let out := goRender (Value.map m) ++ "\n"
      ⟨[out], log1, writeOutput env out⟩

/-- The yaml2txt command action of the second revision (main.go lines
208-223): same success path as the first variant, with errors returned to
the caller instead of aborting through logrus.Fatal. -/
def yaml2txtV2Run (debug : Bool) (env : Env) : RunTrace :=
  match readInput env with
  | Except.error e => ⟨[], [], Except.error e⟩
  | Except.ok content =>
    let log1 := if debug then ["unmarshalling"] else []
    match env.decodeMap content with
    | Except.error e => ⟨[], log1, Except.error (RunError.decodeError e)⟩
    | Except.ok m =>
      let out := goRender (Value.map m) ++ "\n"
      ⟨[out], log1, writeOutput env out⟩

/-- An environment whose output destination accepts every write, the
precondition under which a run can succeed end to end. -/
def writeOk (env : Env) : Prop := ∀ s, writeOutput env s = Except.ok ()

/-- Whether a value is a scalar of the value model. -/
def scalarValue : Value → Bool
  | Value.bool _ => true
  | Value.int _ => true
  | Value.str _ => true
  | _ => false

/-- A baseline invocation environment: piped stdin, stdout output, every
destination writable; concrete environments below override fields. -/
def baseEnv : Env :=
  { inputPath := ""
    outputPath := ""
    stdinIsPipe := true
    stdinContent := ""
    files := []
    decode := fun _ => Except.error "yaml: no decoder configured"
    decodeMap := fun _ => Except.error "yaml: no decoder configured"
    stdoutErr := false
    stdoutShortWrite := false
    fileWriteErr := false }

/-- Run on the document with the single key bar mapped to 7, read from a
file, with no way to pass a query (the command has no jsonpath flag). -/
def envC1 : Env :=
  { baseEnv with
    inputPath := "in.yaml"
    stdinIsPipe := false
    files := [("in.yaml", "bar: 7\n")]
    decode := fun _ => Except.ok (Value.map [("bar", Value.int 7)]) }

/-- Run on a document without the key foo. -/
def envC2 : Env :=
  { baseEnv with
    stdinContent := "bar: 1\n"
    decode := fun _ => Except.ok (Value.map [("bar", Value.int 1)]) }

/-- Run on a document whose key foo holds an explicit null. -/
def envC3 : Env :=
  { baseEnv with
    stdinContent := "foo: null\n"
    decode := fun _ => Except.ok (Value.map [("foo", Value.null)]) }

/-- Run on the document with foo mapped to the scalar 42. -/
def envC4 : Env :=
  { baseEnv with
    stdinContent := "foo: 42\n"
    decode := fun _ => Except.ok (Value.map [("foo", Value.int 42)]) }

/-- Run with no input flag and a standard input that is not a pipe. -/
def envC6 : Env :=
  { baseEnv with stdinIsPipe := false }

/-- Run with no input flag and a piped standard input. -/
def envC6b : Env :=
  { baseEnv with stdinContent := "a: 1\n" }

/-- Run whose every stage succeeds. -/
def envC7 : Env :=
  { baseEnv with
    stdinContent := "foo: 42\n"
    decode := fun _ => Except.ok (Value.map [("foo", Value.int 42)]) }

/-- Run whose decode stage fails on malformed YAML. -/
def envC7e : Env :=
  { baseEnv with
    stdinContent := "foo: [oops\n"
    decode := fun _ => Except.error "yaml: line 1: did not find expected node content" }

/-- Run on a document decoding to a one-entry string-keyed map. -/
def envC8 : Env :=
  { baseEnv with
    stdinContent := "a: 1\n"
    decodeMap := fun _ => Except.ok [("a", Value.int 1)] }

/-- Run on an empty document, which decodes to the nil object. -/
def envC10 : Env :=
  { baseEnv with
    stdinContent := "\n"
    decode := fun _ => Except.ok Value.null }

theorem tmpl_parses : jsonpathParse tmpl = Except.ok ["foo"] := rfl

theorem empty_append_str (s : String) : "" ++ s = s := by
  cases s with
  | mk data => rfl

theorem join_singleton (s : String) : String.join [s] = s := by
  simp [String.join, empty_append_str s]

/-- Claim C1 (code bug): the spec requires that with no path-query the
yaml2json pipeline selects the whole root value and outputs the JSON
encoding of the entire document; the code offers no jsonpath flag at all
and always evaluates the hardcoded template dot-foo, so on the document
mapping bar to 7 the run commits zero output bytes instead of the JSON
encoding of the document. -/
theorem yaml2json_hardcoded_query_drops_document :
    totalOutput (yaml2jsonRun false envC1) = "" ∧
    jsonEncode (Value.map [("bar", Value.int 7)]) = "\x7b\"bar\":7\x7d" ∧
    totalOutput (yaml2jsonRun false envC1) ≠ jsonEncode (Value.map [("bar", Value.int 7)]) :=
  ⟨rfl, rfl, by decide⟩

/-- Claim C2: when the evaluated path-query names a mapping key absent
from the document, evaluation produces zero matches rather than an
error, and the run commits exactly zero output bytes and returns no
error. -/
theorem absent_key_zero_matches_zero_output
    (debug : Bool) (env : Env) (c : String) (pairs : List (String × Value))
    (hr : readInput env = Except.ok c)
    (hd : env.decode c = Except.ok (Value.map pairs))
    (habs : lookupKv pairs "foo" = none)
    (hw : writeOk env) :
    evaluate ["foo"] (Value.map pairs) = [] ∧
    totalOutput (yaml2jsonRun debug env) = "" ∧
    (yaml2jsonRun debug env).result = Except.ok () := by
  have heval : evaluate ["foo"] (Value.map pairs) = [] := by
    simp [evaluate, evalSegment, habs]
  have hexec : jsonpathExecute ["foo"] (Value.map pairs) = Except.ok "" := by
    simp [jsonpathExecute, heval, shape]
  refine ⟨heval, ?_, ?_⟩
  · simp [totalOutput, yaml2jsonRun, hr, hd, tmpl_parses, hexec, join_singleton]
  · simp [yaml2jsonRun, hr, hd, tmpl_parses, hexec, hw ""]

theorem absent_key_zero_matches_zero_output_witness :
    evaluate ["foo"] (Value.map [("bar", Value.int 1)]) = [] ∧
    totalOutput (yaml2jsonRun false envC2) = "" ∧
    (yaml2jsonRun false envC2).result = Except.ok () :=
  absent_key_zero_matches_zero_output false envC2 "bar: 1\n" [("bar", Value.int 1)]
    rfl rfl rfl (fun _ => rfl)

/-- Claim C3: when the evaluated path-query selects a key present with an
explicit null value, evaluation yields the single match Null, and the run
commits the serialized null token, not zero bytes, so a present-and-null
field is distinguishable from an absent one at the output. -/
theorem present_null_key_single_null_match
    (debug : Bool) (env : Env) (c : String) (pairs : List (String × Value))
    (hr : readInput env = Except.ok c)
    (hd : env.decode c = Except.ok (Value.map pairs))
    (hnull : lookupKv pairs "foo" = some Value.null)
    (hw : writeOk env) :
    evaluate ["foo"] (Value.map pairs) = [Value.null] ∧
    totalOutput (yaml2jsonRun debug env) = "null" ∧
    totalOutput (yaml2jsonRun debug env) ≠ "" ∧
    (yaml2jsonRun debug env).result = Except.ok () := by
  have heval : evaluate ["foo"] (Value.map pairs) = [Value.null] := by
    simp [evaluate, evalSegment, hnull]
  have hexec : jsonpathExecute ["foo"] (Value.map pairs) = Except.ok "null" := by
    simp [jsonpathExecute, heval, shape, jsonEncode]
  have hout : totalOutput (yaml2jsonRun debug env) = "null" := by
    simp [totalOutput, yaml2jsonRun, hr, hd, tmpl_parses, hexec, join_singleton]
  refine ⟨heval, hout, ?_, ?_⟩
  · rw [hout]; decide
  · simp [yaml2jsonRun, hr, hd, tmpl_parses, hexec, hw "null"]

theorem present_null_key_single_null_match_witness :
    evaluate ["foo"] (Value.map [("foo", Value.null)]) = [Value.null] ∧
    totalOutput (yaml2jsonRun false envC3) = "null" ∧
    totalOutput (yaml2jsonRun false envC3) ≠ "" ∧
    (yaml2jsonRun false envC3).result = Except.ok () :=
  present_null_key_single_null_match false envC3 "foo: null\n" [("foo", Value.null)]
    rfl rfl rfl (fun _ => rfl)

/-- Claim C4: when the evaluated path-query matches exactly one scalar
value, the committed output is the bare JSON literal of that scalar,
unwrapped from any list; in particular dot-foo over the document mapping
foo to 42 commits exactly the bytes of the numeral 42. -/
theorem single_scalar_bare_literal_output
    (debug : Bool) (env : Env) (c : String) (pairs : List (String × Value)) (v : Value)
    (hr : readInput env = Except.ok c)
    (hd : env.decode c = Except.ok (Value.map pairs))
    (hv : lookupKv pairs "foo" = some v)
    (hs : scalarValue v = true)
    (hw : writeOk env) :
    evaluate ["foo"] (Value.map pairs) = [v] ∧
    totalOutput (yaml2jsonRun debug env) = jsonEncode v ∧
    (yaml2jsonRun debug env).result = Except.ok () := by
  have heval : evaluate ["foo"] (Value.map pairs) = [v] := by
    simp [evaluate, evalSegment, hv]
  have hexec : jsonpathExecute ["foo"] (Value.map pairs) = Except.ok (jsonEncode v) := by
    simp [jsonpathExecute, heval, shape]
  refine ⟨heval, ?_, ?_⟩
  · simp [totalOutput, yaml2jsonRun, hr, hd, tmpl_parses, hexec, join_singleton]
  · simp [yaml2jsonRun, hr, hd, tmpl_parses, hexec, hw (jsonEncode v)]

theorem single_scalar_bare_literal_output_witness :
    totalOutput (yaml2jsonRun false envC4) = jsonEncode (Value.int 42) ∧
    jsonEncode (Value.int 42) = "42" ∧
    (yaml2jsonRun false envC4).result = Except.ok () :=
  ⟨(single_scalar_bare_literal_output false envC4 "foo: 42\n" [("foo", Value.int 42)]
      (Value.int 42) rfl rfl rfl rfl (fun _ => rfl)).2.1,
   rfl,
   (single_scalar_bare_literal_output false envC4 "foo: 42\n" [("foo", Value.int 42)]
      (Value.int 42) rfl rfl rfl rfl (fun _ => rfl)).2.2⟩

/-- Claim C5 (code bug): the spec requires that a run with a malformed
path-query expression fails with a non-zero exit naming the expression;
the code exposes no flag through which an expression could be supplied:
the template the yaml2json action parses is the hardcoded dot-foo
template, which always parses successfully, so no run can ever have a
malformed path-query expression. -/
theorem template_hardcoded_never_malformed :
    tmpl = "\x7b.foo\x7d" ∧ jsonpathParse tmpl = Except.ok ["foo"] :=
  ⟨rfl, tmpl_parses⟩

/-- Claim C6: with no input flag, a standard input that is not a pipe
makes readInput return the exit error with code 1 and the run fails with
no output committed, while a piped standard input makes readInput
proceed and return the piped bytes. -/
theorem stdin_not_pipe_fails_run (debug : Bool) (env : Env)
    (hpath : env.inputPath = "") :
    (env.stdinIsPipe = false →
      readInput env = Except.error (RunError.exitError "Expected a pipe stdin" 1) ∧
      (yaml2jsonRun debug env).writes = [] ∧
      (yaml2jsonRun debug env).result =
        Except.error (RunError.exitError "Expected a pipe stdin" 1)) ∧
    (env.stdinIsPipe = true → readInput env = Except.ok env.stdinContent) := by
  constructor
  · intro h
    have hr : readInput env = Except.error (RunError.exitError "Expected a pipe stdin" 1) := by
      simp [readInput, hpath, h]
    refine ⟨hr, ?_, ?_⟩ <;> simp [yaml2jsonRun, hr]
  · intro h
    simp [readInput, hpath, h]

theorem stdin_not_pipe_fails_run_witness :
    (readInput envC6 = Except.error (RunError.exitError "Expected a pipe stdin" 1) ∧
      (yaml2jsonRun false envC6).writes = [] ∧
      (yaml2jsonRun false envC6).result =
        Except.error (RunError.exitError "Expected a pipe stdin" 1)) ∧
    readInput envC6b = Except.ok envC6b.stdinContent :=
  ⟨(stdin_not_pipe_fails_run false envC6 rfl).1 rfl,
   (stdin_not_pipe_fails_run false envC6b rfl).2 rfl⟩

/-- Claim C7: in every yaml2json run, writeOutput is called at most once,
and a failure of the read stage or of the decode stage means writeOutput
is never called, so no partial output is committed on those errors; in
the embedding the later stages, parsing the hardcoded template and
executing it, cannot fail, and the source returns before writeOutput on
their error branches as well. -/
theorem write_at_most_once_only_after_success (debug : Bool) (env : Env) :
    (yaml2jsonRun debug env).writes.length ≤ 1 ∧
    (∀ e, readInput env = Except.error e → (yaml2jsonRun debug env).writes = []) ∧
    (∀ c e, readInput env = Except.ok c → env.decode c = Except.error e →
      (yaml2jsonRun debug env).writes = []) := by
  refine ⟨?_, ?_, ?_⟩
  · cases hr : readInput env with
    | error e => simp [yaml2jsonRun, hr]
    | ok c =>
      cases hd : env.decode c with
      | error e => simp [yaml2jsonRun, hr, hd]
      | ok obj =>
        cases obj <;> simp [yaml2jsonRun, hr, hd, tmpl_parses, jsonpathExecute]
  · intro e he
    simp [yaml2jsonRun, he]
  · intro c e h1 h2
    simp [yaml2jsonRun, h1, h2]

theorem write_at_most_once_only_after_success_witness :
    (yaml2jsonRun false envC7).writes.length ≤ 1 ∧
    (yaml2jsonRun false envC7e).writes = [] :=
  ⟨(write_at_most_once_only_after_success false envC7).1,
   (write_at_most_once_only_after_success false envC7e).2.2 "foo: [oops\n"
     "yaml: line 1: did not find expected node content" rfl rfl⟩

/-- Claim C8: the two yaml2txt command variants agree on their success
paths: for every input that decodes successfully into a string-keyed
mapping, both write exactly the same bytes, the text rendering of the
decoded map followed by a trailing newline.  The equality is relative to
a common decoded map: the first variant decodes with one YAML library
and the second with another, both external to the repository. -/
theorem yaml2txt_variants_agree_on_success
    (debug : Bool) (env : Env) (c : String) (m : List (String × Value))
    (h1 : readInputV1 env = Except.ok c)
    (h2 : readInput env = Except.ok c)
    (hd : env.decodeMap c = Except.ok m) :
    (yaml2txtV1Run debug env).writes = (yaml2txtV2Run debug env).writes ∧
    (yaml2txtV1Run debug env).writes = [goRender (Value.map m) ++ "\n"] ∧
    (yaml2txtV1Run debug env).result = (yaml2txtV2Run debug env).result := by
  refine ⟨?_, ?_, ?_⟩ <;> simp [yaml2txtV1Run, yaml2txtV2Run, h1, h2, hd]

theorem yaml2txt_variants_agree_on_success_witness :
    (yaml2txtV1Run false envC8).writes = (yaml2txtV2Run false envC8).writes ∧
    (yaml2txtV1Run false envC8).writes = [goRender (Value.map [("a", Value.int 1)]) ++ "\n"] ∧
    (yaml2txtV1Run false envC8).result = (yaml2txtV2Run false envC8).result :=
  yaml2txt_variants_agree_on_success false envC8 "a: 1\n" [("a", Value.int 1)] rfl rfl rfl

/-- Claim C9: for every input and flag configuration, the run with the
debug flag set and the run with it unset commit identical output bytes
and return the same result, in all three command actions: the flag only
changes which log lines are emitted. -/
theorem debug_flag_output_noninterference (env : Env) :
    (yaml2jsonRun true env).writes = (yaml2jsonRun false env).writes ∧
    (yaml2jsonRun true env).result = (yaml2jsonRun false env).result ∧
    (yaml2txtV1Run true env).writes = (yaml2txtV1Run false env).writes ∧
    (yaml2txtV1Run true env).result = (yaml2txtV1Run false env).result ∧
    (yaml2txtV2Run true env).writes = (yaml2txtV2Run false env).writes ∧
    (yaml2txtV2Run true env).result = (yaml2txtV2Run false env).result := by
  refine ⟨?_, ?_, ?_, ?_, ?_, ?_⟩
  · cases hr : readInput env with
    | error e => simp [yaml2jsonRun, hr]
    | ok c =>
      cases hd : env.decode c with
      | error e => simp [yaml2jsonRun, hr, hd]
      | ok obj =>
        cases obj <;> simp [yaml2jsonRun, hr, hd, tmpl_parses, jsonpathExecute]
  · cases hr : readInput env with
    | error e => simp [yaml2jsonRun, hr]
    | ok c =>
      cases hd : env.decode c with
      | error e => simp [yaml2jsonRun, hr, hd]
      | ok obj =>
        cases obj <;> simp [yaml2jsonRun, hr, hd, tmpl_parses, jsonpathExecute]
  · cases hr : readInputV1 env with
    | error e => simp [yaml2txtV1Run, hr]
    | ok c =>
      cases hdm : env.decodeMap c with
      | error e => simp [yaml2txtV1Run, hr, hdm]
      | ok m => simp [yaml2txtV1Run, hr, hdm]
  · cases hr : readInputV1 env with
    | error e => simp [yaml2txtV1Run, hr]
    | ok c =>
      cases hdm : env.decodeMap c with
      | error e => simp [yaml2txtV1Run, hr, hdm]
      | ok m => simp [yaml2txtV1Run, hr, hdm]
  · cases hr : readInput env with
    | error e => simp [yaml2txtV2Run, hr]
    | ok c =>
      cases hdm : env.decodeMap c with
      | error e => simp [yaml2txtV2Run, hr, hdm]
      | ok m => simp [yaml2txtV2Run, hr, hdm]
  · cases hr : readInput env with
    | error e => simp [yaml2txtV2Run, hr]
    | ok c =>
      cases hdm : env.decodeMap c with
      | error e => simp [yaml2txtV2Run, hr, hdm]
      | ok m => simp [yaml2txtV2Run, hr, hdm]

/-- Claim C10: when the YAML decodes to the nil object, the yaml2json
action short-circuits through a single writeOutput call of zero bytes
and returns success, so a null root document commits exactly zero output
bytes, the same observable output as a zero-match query result. -/
theorem nil_root_short_circuit_zero_output
    (debug : Bool) (env : Env) (c : String)
    (hr : readInput env = Except.ok c)
    (hd : env.decode c = Except.ok Value.null)
    (hw : writeOk env) :
    (yaml2jsonRun debug env).writes = [""] ∧
    totalOutput (yaml2jsonRun debug env) = "" ∧
    (yaml2jsonRun debug env).result = Except.ok () := by
  refine ⟨?_, ?_, ?_⟩ <;>
    simp [yaml2jsonRun, totalOutput, hr, hd, hw "", join_singleton]

theorem nil_root_short_circuit_zero_output_witness :
    (yaml2jsonRun false envC10).writes = [""] ∧
    totalOutput (yaml2jsonRun false envC10) = "" ∧
    (yaml2jsonRun false envC10).result = Except.ok () :=
  nil_root_short_circuit_zero_output false envC10 "\n" rfl rfl (fun _ => rfl)
